import Mathlib

/-!
Shallow embedding of the object/geometry model layer of `fbxcel-dom`
(`src/v7400/global_settings.rs` and the mesh index model declared in
`src/v7400/data/mesh.rs`), together with proofs settling the frozen claims
about it.

Conventions:
* Rust `Result<T>` becomes `Except FbxError T`; the `error!` macro calls are
  embedded as structured `FbxError` constructors carrying exactly the dynamic
  data interpolated into the corresponding message.
* A Rust function that can also panic (via `unreachable!`) returns `Outcome`,
  which distinguishes `ok`, `err`, and `panicked`.
* `f64` values appear only through the classification predicates
  (`is_normal` / `classify`), never through arithmetic, so they are embedded
  as IEEE 754 binary64 bit patterns (sign, biased exponent, fraction).
* Components whose source is not under `src/` (the property store, object
  properties, and the polygon/triangle index modules, which `mesh.rs` only
  declares and re-exports) are modelled from the spec; their doc comments
  say so explicitly.
-/

namespace Fbxcel

/-- The six signed axes of `v7400::axis::SignedAxis`: positive and negative
X, Y, and Z. -/
inductive SignedAxis where
  | PosX
  | NegX
  | PosY
  | NegY
  | PosZ
  | NegZ
  deriving DecidableEq

/-- Rust `std::num::FpCategory`: the five classes an `f64` value can fall
into. -/
inductive FpCategory where
  | Nan
  | Infinite
  | Zero
  | Subnormal
  | Normal
  deriving DecidableEq

/-- Structured form of the error values built by the `error!` calls in
`global_settings.rs`; each constructor records the dynamic data interpolated
into the corresponding message, so "the error names X" is expressed as the
constructor carrying X. -/
inductive FbxError where
  /-- mirrors the message of the form: expected node but not found. -/
  | nodeNotFound (nodeName : String)
  /-- mirrors the message of the form: expected property but not found. -/
  | propertyNotFound (key : String)
  /-- mirrors the type-mismatch failure of the primitive loaders. -/
  | typeMismatch (expected : String)
  /-- mirrors: invalid Axis property value, expected 0, 1, or 2. -/
  | invalidAxisCode (axisName : String) (got : Int)
  /-- mirrors: invalid AxisSign property value, expected 1 or -1. -/
  | invalidAxisSign (axisName : String) (got : Int)
  /-- mirrors: expected normal floating-point number. -/
  | notNormalValue (category : FpCategory)
  /-- mirrors: invalid axis system, with the three decoded axes. -/
  | invalidAxisSystem (up front right : SignedAxis)
  deriving DecidableEq

/-- Result of running a Rust function that may return `Ok`, return `Err`,
or panic (e.g. through an `unreachable!` call). -/
inductive Outcome (α : Type) where
  | ok (val : α)
  | err (e : FbxError)
  | panicked
  deriving DecidableEq

/-- `load_axis_from_prop` (`global_settings.rs` lines 177-206), translated
arm by arm: the six match arms, then the range check on the axis code, then
the (as-written) check `(axis_sign == 1) || (axis_sign == -1)` guarding the
sign error, then the `unreachable!` call, embedded as `Outcome.panicked`. -/
def load_axis_from_prop (axis_name : String) (axis : Int) (axis_sign : Int) :
    Outcome SignedAxis :=
  if axis = 0 ∧ axis_sign = 1 then .ok .PosX
  else if axis = 0 ∧ axis_sign = -1 then .ok .NegX
  else if axis = 1 ∧ axis_sign = 1 then .ok .PosY
  else if axis = 1 ∧ axis_sign = -1 then .ok .NegY
  else if axis = 2 ∧ axis_sign = 1 then .ok .PosZ
  else if axis = 2 ∧ axis_sign = -1 then .ok .NegZ
  else if ¬(0 ≤ axis ∧ axis ≤ 2) then
    .err (.invalidAxisCode axis_name axis)
  else if axis_sign = 1 ∨ axis_sign = -1 then
    .err (.invalidAxisSign axis_name axis_sign)
  else
    .panicked

/-- An IEEE 754 binary64 (`f64`) bit pattern: sign bit, 11-bit biased
exponent, 52-bit fraction. `UnitScaleFactor::new` inspects its argument only
through `f64::is_normal` / `f64::classify`, which are pure functions of these
fields, so no floating-point arithmetic is needed. -/
structure F64 where
  sign : Bool
  exponent : Nat
  fraction : Nat
  exponent_lt : exponent < 2048
  fraction_lt : fraction < 2 ^ 52

/-- Rust `f64::classify` on the bit pattern: exponent 0 means zero or
subnormal, exponent 2047 means infinity or NaN, anything between is a normal
number. -/
def F64.classify (x : F64) : FpCategory :=
  if x.exponent = 0 then
    if x.fraction = 0 then .Zero else .Subnormal
  else if x.exponent = 2047 then
    if x.fraction = 0 then .Infinite else .Nan
  else .Normal

/-- Rust `f64::is_normal`: the classification is `Normal`. -/
def F64.is_normal (x : F64) : Prop :=
  x.classify = .Normal

instance (x : F64) : Decidable x.is_normal := by
  unfold F64.is_normal
  infer_instance

/-- Rust `f64::is_nan`. -/
def F64.is_nan (x : F64) : Prop :=
  x.classify = .Nan

/-- Rust `f64::is_infinite`. -/
def F64.is_infinite (x : F64) : Prop :=
  x.classify = .Infinite

/-- The value is (positive or negative) zero. -/
def F64.is_zero (x : F64) : Prop :=
  x.classify = .Zero

/-- Rust `f64::is_subnormal`. -/
def F64.is_subnormal (x : F64) : Prop :=
  x.classify = .Subnormal

/-- Rust `f64::is_finite`: neither infinite nor NaN. -/
def F64.is_finite (x : F64) : Prop :=
  ¬x.is_infinite ∧ ¬x.is_nan

/-- The bit pattern of `100.0`: `100.0 = 1.5625 * 2 ^ 6`, biased exponent
`1023 + 6`, fraction `0.5625 * 2 ^ 52`. -/
def f64_100 : F64 :=
  ⟨false, 1029, 9 * 2 ^ 48, by norm_num, by norm_num⟩

/-- The bit pattern of `-1.0`. -/
def f64_neg_one : F64 :=
  ⟨true, 1023, 0, by norm_num, by norm_num⟩

/-- The bit pattern of `+0.0`. -/
def f64_zero : F64 :=
  ⟨false, 0, 0, by norm_num, by norm_num⟩

/-- The bit pattern of `f64::INFINITY`. -/
def f64_inf : F64 :=
  ⟨false, 2047, 0, by norm_num, by norm_num⟩

/-- A bit pattern of a NaN. -/
def f64_nan : F64 :=
  ⟨false, 2047, 1, by norm_num, by norm_num⟩

/-- The bit pattern of the smallest positive subnormal. -/
def f64_min_subnormal : F64 :=
  ⟨false, 0, 1, by norm_num, by norm_num⟩

/-- `UnitScaleFactor` (`global_settings.rs` lines 212-216): a unit in the
document, in centimeters. -/
structure UnitScaleFactor where
  unit_in_centimeters : F64

/-- `UnitScaleFactor::new` (`global_settings.rs` lines 228-240): rejects any
value that is not a "normal" floating-point number. -/
def UnitScaleFactor.new (unit_in_centimeters : F64) : Except FbxError UnitScaleFactor :=
  if ¬unit_in_centimeters.is_normal then
    .error (.notNormalValue unit_in_centimeters.classify)
  else
    .ok ⟨unit_in_centimeters⟩

/-- Modelled from the spec: a property value is "a tagged primitive
(signed/unsigned integers of multiple widths, single/double float, string,
raw byte array)" (§3); the Property Store implementation is not under
`src/`. -/
inductive PropValue where
  | boolean (b : Bool)
  | i16 (v : Int)
  | i32 (v : Int)
  | i64 (v : Int)
  | f32 (v : F64)
  | f64 (v : F64)
  | string (s : String)
  | bytes (raw : List Nat)

/-- Modelled from the spec: a property node holds "a collection of property
values (keys unique within the node)" addressable by key name (§3, §6). -/
def PropNode : Type := List (String × PropValue)

/-- Lookup of a key inside one property node. -/
def PropNode.lookupKey (node : PropNode) (key : String) : Option PropValue :=
  List.lookup key node

/-- Modelled from the spec: `Object Properties` is the pair "(direct:
optional property-node reference, default: optional property-node
reference)" (§3); its implementation is not under `src/` (only the
constructor call in `GlobalSettings::new` is). -/
structure ObjectProperties where
  direct : Option PropNode
  defaults : Option PropNode

/-- Modelled from the spec (§4.2): "if `direct` is present and contains
`key`, return that value; else if `default` is present and contains `key`,
return that value". -/
def ObjectProperties.get (op : ObjectProperties) (key : String) : Option PropValue :=
  match op.direct.bind fun node => node.lookupKey key with
  | some v => some v
  | none => op.defaults.bind fun node => node.lookupKey key

/-- Modelled from the spec (§4.2): when neither scope holds the key, the
lookup fails "with a property not found error naming the key". -/
def ObjectProperties.getOrError (op : ObjectProperties) (key : String) :
    Except FbxError PropValue :=
  match op.get key with
  | some v => .ok v
  | none => .error (.propertyNotFound key)

/-- Modelled from the spec (§4.2): the `i32` primitive loader "fails with a
type-mismatch error if the stored tag does not match"; `PrimitiveLoader` is
not under `src/`. -/
def loadPrimI32 : PropValue → Except FbxError Int
  | .i32 v => .ok v
  | _ => .error (.typeMismatch "i32")

/-- Modelled from the spec (§4.2): the `f64` primitive loader. -/
def loadPrimF64 : PropValue → Except FbxError F64
  | .f64 v => .ok v
  | _ => .error (.typeMismatch "f64")

/-- `GlobalSettings` (`global_settings.rs` lines 10-13): a proxy holding the
object properties of the `/GlobalSettings` node. -/
structure GlobalSettings where
  props : ObjectProperties

/-- `GlobalSettings::up_axis_raw` (`global_settings.rs` lines 78-83): read
the `UpAxis` property, failing with an error naming `UpAxis` when absent,
then load it as `i32`. -/
def GlobalSettings.up_axis_raw (gs : GlobalSettings) : Except FbxError Int :=
  match gs.props.get "UpAxis" with
  | none => .error (.propertyNotFound "UpAxis")
  | some v => loadPrimI32 v

/-- `GlobalSettings::up_axis_sign_raw` (lines 86-91). -/
def GlobalSettings.up_axis_sign_raw (gs : GlobalSettings) : Except FbxError Int :=
  match gs.props.get "UpAxisSign" with
  | none => .error (.propertyNotFound "UpAxisSign")
  | some v => loadPrimI32 v

/-- `GlobalSettings::front_axis_raw` (lines 94-99). -/
def GlobalSettings.front_axis_raw (gs : GlobalSettings) : Except FbxError Int :=
  match gs.props.get "FrontAxis" with
  | none => .error (.propertyNotFound "FrontAxis")
  | some v => loadPrimI32 v

/-- `GlobalSettings::front_axis_sign_raw` (lines 102-107). -/
def GlobalSettings.front_axis_sign_raw (gs : GlobalSettings) : Except FbxError Int :=
  match gs.props.get "FrontAxisSign" with
  | none => .error (.propertyNotFound "FrontAxisSign")
  | some v => loadPrimI32 v

/-- `GlobalSettings::coord_axis_raw` (lines 110-115). -/
def GlobalSettings.coord_axis_raw (gs : GlobalSettings) : Except FbxError Int :=
  match gs.props.get "CoordAxis" with
  | none => .error (.propertyNotFound "CoordAxis")
  | some v => loadPrimI32 v

/-- `GlobalSettings::coord_axis_sign_raw` (lines 118-123). -/
def GlobalSettings.coord_axis_sign_raw (gs : GlobalSettings) : Except FbxError Int :=
  match gs.props.get "CoordAxisSign" with
  | none => .error (.propertyNotFound "CoordAxisSign")
  | some v => loadPrimI32 v

/-- `GlobalSettings::original_up_axis_raw` (lines 135-140). -/
def GlobalSettings.original_up_axis_raw (gs : GlobalSettings) : Except FbxError Int :=
  match gs.props.get "OriginalUpAxis" with
  | none => .error (.propertyNotFound "OriginalUpAxis")
  | some v => loadPrimI32 v

/-- `GlobalSettings::original_up_axis_sign_raw` (lines 143-148). -/
def GlobalSettings.original_up_axis_sign_raw (gs : GlobalSettings) : Except FbxError Int :=
  match gs.props.get "OriginalUpAxisSign" with
  | none => .error (.propertyNotFound "OriginalUpAxisSign")
  | some v => loadPrimI32 v

/-- `GlobalSettings::unit_scale_factor_raw` (lines 167-172): reads the
`UnitScaleFactor` property as `f64`. -/
def GlobalSettings.unit_scale_factor_raw (gs : GlobalSettings) : Except FbxError F64 :=
  match gs.props.get "UnitScaleFactor" with
  | none => .error (.propertyNotFound "UnitScaleFactor")
  | some v => loadPrimF64 v

/-- The direct property node of the §8 resolution example. -/
def exampleDirect : PropNode :=
  [("A", PropValue.i32 1)]

/-- The default (class-template) property node of the §8 resolution
example. -/
def exampleDefaults : PropNode :=
  [("A", PropValue.i32 2), ("B", PropValue.i32 3)]

/-- The object properties of the §8 resolution example. -/
def exampleOP : ObjectProperties :=
  ⟨some exampleDirect, some exampleDefaults⟩

/-- A node of the already-parsed FBX node tree, the external collaborator
interface of §6: a name, the property entries reachable through the node's
id, and the child nodes in document order. -/
inductive FbxNode where
  | node (name : String) (props : PropNode) (children : List FbxNode)

/-- The node's name. -/
def FbxNode.name : FbxNode → String
  | .node n _ _ => n

/-- The property entries reachable through the node's id. -/
def FbxNode.props : FbxNode → PropNode
  | .node _ p _ => p

/-- The node's children in document order. -/
def FbxNode.children : FbxNode → List FbxNode
  | .node _ _ c => c

/-- `first_child_by_name` of the tree layer (§6): the first child whose name
matches. -/
def FbxNode.first_child_by_name (parent : FbxNode) (childName : String) :
    Option FbxNode :=
  parent.children.find? fun c => c.name == childName

/-- A parsed document, restricted to the two interfaces `GlobalSettings::new`
consumes (§6): the tree root and the Definitions Cache lookup
`props_node_id(class_name, subclass_name)`. -/
structure Document where
  root : FbxNode
  definitions_cache : String → String → Option PropNode

/-- `GlobalSettings::new` (`global_settings.rs` lines 17-36): find the
`GlobalSettings` child of the root (error naming it if absent), take the
optional `Properties70` sub-node as the direct scope and the Definitions
Cache entry for `("GlobalSettings", "FbxGlobalSettings")` as the default
scope. -/
def GlobalSettings.new (doc : Document) : Except FbxError GlobalSettings :=
  match doc.root.first_child_by_name "GlobalSettings" with
  | none => .error (.nodeNotFound "GlobalSettings")
  | some gsNode =>
    let direct_props := (gsNode.first_child_by_name "Properties70").map FbxNode.props
    let default_props := doc.definitions_cache "GlobalSettings" "FbxGlobalSettings"
    .ok ⟨⟨direct_props, default_props⟩⟩

/-- A document whose root has a bare `GlobalSettings` child (no
`Properties70` sub-node) and whose Definitions Cache is empty. -/
def exampleBareDoc : Document :=
  ⟨.node "" [] [.node "GlobalSettings" [] []], fun _ _ => none⟩

/-- Modelled from the spec: the `MalformedIndexBuffer` error kind (§7); the
`polygon_vertex_index` module is declared in `mesh.rs` but its source is not
under `src/`. -/
inductive MeshError where
  | MalformedIndexBuffer
  deriving DecidableEq

/-- Modelled from the spec (§4.6): the left-to-right scan over the raw
sign-encoded buffer. `current` is the polygon being accumulated. A
non-negative entry is appended literally; a negative entry `v` closes the
current polygon with `-(v + 1)` (bitwise not) as its last vertex, failing if
the closed polygon has fewer than 3 vertices; a buffer ending with an open
polygon is a hard error. -/
def decodePolyVerts : List Nat → List Int → Except MeshError (List (List Nat))
  | current, [] =>
    if current.isEmpty then .ok []
    else .error .MalformedIndexBuffer
  | current, v :: rest =>
    if 0 ≤ v then
      decodePolyVerts (current ++ [v.toNat]) rest
    else
      let closed := current ++ [(-(v + 1)).toNat]
      if closed.length < 3 then .error .MalformedIndexBuffer
      else (decodePolyVerts [] rest).map fun polys => closed :: polys

/-- Modelled from the spec (§4.6): decoding of `RawPolygonVertices` into the
ordered sequence of polygons, each an ordered sequence of control-point
indices. -/
def PolygonVertices.decode (raw : List Int) : Except MeshError (List (List Nat)) :=
  decodePolyVerts [] raw

/-- Spec-side encoder (§4.6 read in reverse): every vertex of a polygon is
stored literally except the last, stored as the bitwise complement
`Int.negSucc` of its true index. Used to state the decoding law. -/
def encodePolygon (poly : List Nat) : List Int :=
  match poly.getLast? with
  | none => []
  | some last => (poly.dropLast.map Int.ofNat) ++ [Int.negSucc last]

/-- Spec-side encoder over a whole polygon sequence. -/
def encodePolygons (polys : List (List Nat)) : List Int :=
  (polys.map encodePolygon).flatten

/-- Modelled from the spec (§4.7): the fan emitted while walking the tail of
a polygon: each adjacent pair of remaining vertices forms a triangle with the
fixed first vertex `v0`. -/
def fanFrom (v0 : Nat) : List Nat → List (Nat × Nat × Nat)
  | a :: b :: rest => (v0, a, b) :: fanFrom v0 (b :: rest)
  | _ => []

/-- Modelled from the spec (§4.7): fan triangulation of one decoded polygon;
the `triangle_vertex_index` module is declared in `mesh.rs` but its source is
not under `src/`. -/
def fanTriangles : List Nat → List (Nat × Nat × Nat)
  | [] => []
  | v0 :: rest => fanFrom v0 rest

/-- C1: the claim says every invalid pair yields an error, naming the sign
component when the axis code is valid but the sign is not. The code instead
reaches `unreachable!` there: its sign-error branch fires only when the sign
IS 1 or -1, which cannot happen in the default branch, so on axis code 0 with
sign 5 the function panics rather than returning the sign error. The axis-code
half of the claim does hold, shown at axis code 3. -/
theorem load_axis_invalid_sign_panics_not_err :
    load_axis_from_prop "Up" 0 5 = .panicked ∧
    load_axis_from_prop "Up" 3 5 = .err (.invalidAxisCode "Up" 3) :=
  ⟨rfl, rfl⟩

/-- C2: the claim says `load_axis_from_prop` never reaches the `unreachable!`
branch. In fact it panics exactly when the axis code is in {0, 1, 2} and the
sign is neither 1 nor -1, e.g. at axis code 1 with sign 0 — the inequality
test guarding the sign error is inverted in the source. -/
theorem load_axis_panics_iff :
    load_axis_from_prop "Front" 1 0 = .panicked ∧
    ∀ (axis_name : String) (axis axis_sign : Int),
      load_axis_from_prop axis_name axis axis_sign = .panicked ↔
        (0 ≤ axis ∧ axis ≤ 2 ∧ axis_sign ≠ 1 ∧ axis_sign ≠ -1) := by
  refine ⟨rfl, fun axis_name axis axis_sign => ?_⟩
  unfold load_axis_from_prop
  split_ifs with h1 h2 h3 h4 h5 h6 h7 h8 <;> simp_all <;> omega

/-- C2 witness: the panic characterization applied at axis code 2 with
sign 7. -/
theorem load_axis_panics_iff_witness :
    load_axis_from_prop "Coord" 2 7 = .panicked :=
  (load_axis_panics_iff.2 "Coord" 2 7).mpr (by norm_num)

/-- C4: each of the six valid (axis code, axis sign) pairs decodes to the
matching signed axis, for any axis name. -/
theorem load_axis_valid_pairs (axis_name : String) :
    load_axis_from_prop axis_name 0 1 = .ok .PosX ∧
    load_axis_from_prop axis_name 0 (-1) = .ok .NegX ∧
    load_axis_from_prop axis_name 1 1 = .ok .PosY ∧
    load_axis_from_prop axis_name 1 (-1) = .ok .NegY ∧
    load_axis_from_prop axis_name 2 1 = .ok .PosZ ∧
    load_axis_from_prop axis_name 2 (-1) = .ok .NegZ := by
  refine ⟨rfl, rfl, rfl, rfl, rfl, rfl⟩

/-- C4 witness: the six valid pairs at the concrete axis name used for the
up axis. -/
theorem load_axis_valid_pairs_witness :
    load_axis_from_prop "Up" 1 1 = .ok .PosY :=
  (load_axis_valid_pairs "Up").2.2.1

/-- Being classified `Normal` is the same as being finite, nonzero, not
subnormal and not NaN. -/
theorem F64.normal_iff (x : F64) :
    x.is_normal ↔ x.is_finite ∧ ¬x.is_zero ∧ ¬x.is_subnormal ∧ ¬x.is_nan := by
  rcases h : x.classify <;>
    simp [F64.is_normal, F64.is_finite, F64.is_infinite, F64.is_nan,
      F64.is_zero, F64.is_subnormal, h]

/-- C3: `UnitScaleFactor.new x` succeeds exactly when `x` is a normal `f64`
(equivalently: finite, nonzero, not subnormal, not NaN); on success the
`unit_in_centimeters` field is exactly `x`, hence always a normal value.
Concretely it accepts `100.0` and `-1.0` and rejects `0.0`, infinity, NaN and
the minimal subnormal. -/
theorem unit_scale_factor_new_spec :
    (∀ x : F64,
      (∃ u, UnitScaleFactor.new x = .ok u) ↔
        x.is_finite ∧ ¬x.is_zero ∧ ¬x.is_subnormal ∧ ¬x.is_nan) ∧
    (∀ (x : F64) (u : UnitScaleFactor),
      UnitScaleFactor.new x = .ok u → u.unit_in_centimeters = x ∧ u.unit_in_centimeters.is_normal) ∧
    UnitScaleFactor.new f64_100 = .ok ⟨f64_100⟩ ∧
    UnitScaleFactor.new f64_neg_one = .ok ⟨f64_neg_one⟩ ∧
    UnitScaleFactor.new f64_zero = .error (.notNormalValue .Zero) ∧
    UnitScaleFactor.new f64_inf = .error (.notNormalValue .Infinite) ∧
    UnitScaleFactor.new f64_nan = .error (.notNormalValue .Nan) ∧
    UnitScaleFactor.new f64_min_subnormal = .error (.notNormalValue .Subnormal) := by
  refine ⟨fun x => ?_, fun x u h => ?_, rfl, rfl, rfl, rfl, rfl, rfl⟩
  · rw [← F64.normal_iff]
    unfold UnitScaleFactor.new
    split_ifs with h <;> simp_all
  · unfold UnitScaleFactor.new at h
    split_ifs at h with hn
    cases h
    exact ⟨rfl, hn⟩

/-- C3 witness: applying the round-trip part at the concrete value `100.0`. -/
theorem unit_scale_factor_new_spec_witness :
    (UnitScaleFactor.mk f64_100).unit_in_centimeters = f64_100 ∧
    (UnitScaleFactor.mk f64_100).unit_in_centimeters.is_normal :=
  unit_scale_factor_new_spec.2.1 f64_100 ⟨f64_100⟩ rfl

/-- C8: property lookup checks the direct node before the default node: a
key present in the direct node resolves there; a key absent from the direct
scope but present in the default node resolves to the default value; a key
absent from both fails with a property-not-found error naming the key.
Concretely, with direct `{A: 1}` and default `{A: 2, B: 3}`, `get "A"` is
`1`, `get "B"` is `3`, and `"C"` fails naming `C`. -/
theorem object_properties_get_spec :
    (∀ (op : ObjectProperties) (d : PropNode) (key : String) (v : PropValue),
      op.direct = some d → d.lookupKey key = some v → op.get key = some v) ∧
    (∀ (op : ObjectProperties) (f : PropNode) (key : String) (v : PropValue),
      (∀ d, op.direct = some d → d.lookupKey key = none) →
      op.defaults = some f → f.lookupKey key = some v → op.get key = some v) ∧
    (∀ (op : ObjectProperties) (key : String),
      (∀ d, op.direct = some d → d.lookupKey key = none) →
      (∀ f, op.defaults = some f → f.lookupKey key = none) →
      op.getOrError key = .error (.propertyNotFound key)) ∧
    exampleOP.get "A" = some (.i32 1) ∧
    exampleOP.get "B" = some (.i32 3) ∧
    exampleOP.getOrError "C" = .error (.propertyNotFound "C") := by
  refine ⟨fun op d key v hd hv => ?_, fun op f key v hnone hf hv => ?_,
    fun op key hnoneD hnoneF => ?_, rfl, rfl, rfl⟩
  · simp [ObjectProperties.get, hd, hv]
  · have hDb : (op.direct.bind fun node => node.lookupKey key) = none := by
      rcases hD : op.direct with _ | d
      · rfl
      · simp [hnone d hD]
    unfold ObjectProperties.get
    rw [hDb]
    simp [hf, hv]
  · have hDb : (op.direct.bind fun node => node.lookupKey key) = none := by
      rcases hD : op.direct with _ | d
      · rfl
      · simp [hnoneD d hD]
    have hFb : (op.defaults.bind fun node => node.lookupKey key) = none := by
      rcases hF : op.defaults with _ | f
      · rfl
      · simp [hnoneF f hF]
    unfold ObjectProperties.getOrError ObjectProperties.get
    rw [hDb]
    simp [hFb]

/-- C8 witness: the direct-scope clause applied at the concrete example:
key `A` present in the direct node resolves to its direct value. -/
theorem object_properties_get_spec_witness :
    exampleOP.get "A" = some (.i32 1) :=
  object_properties_get_spec.1 exampleOP exampleDirect "A" (.i32 1) rfl rfl

/-- C9: each raw `GlobalSettings` accessor consults exactly its fixed key:
when that key is absent from both scopes the accessor fails with an error
naming that exact key, and the accessor's result depends only on the lookup
of that key (so no other key is consulted and nothing is defaulted). Stated
for all nine keys: `UpAxis`, `UpAxisSign`, `FrontAxis`, `FrontAxisSign`,
`CoordAxis`, `CoordAxisSign`, `OriginalUpAxis`, `OriginalUpAxisSign`,
`UnitScaleFactor`. -/
theorem global_settings_accessor_keys :
    (∀ gs : GlobalSettings, gs.props.get "UpAxis" = none →
      gs.up_axis_raw = .error (.propertyNotFound "UpAxis")) ∧
    (∀ a b : GlobalSettings, a.props.get "UpAxis" = b.props.get "UpAxis" →
      a.up_axis_raw = b.up_axis_raw) ∧
    (∀ gs : GlobalSettings, gs.props.get "UpAxisSign" = none →
      gs.up_axis_sign_raw = .error (.propertyNotFound "UpAxisSign")) ∧
    (∀ a b : GlobalSettings, a.props.get "UpAxisSign" = b.props.get "UpAxisSign" →
      a.up_axis_sign_raw = b.up_axis_sign_raw) ∧
    (∀ gs : GlobalSettings, gs.props.get "FrontAxis" = none →
      gs.front_axis_raw = .error (.propertyNotFound "FrontAxis")) ∧
    (∀ a b : GlobalSettings, a.props.get "FrontAxis" = b.props.get "FrontAxis" →
      a.front_axis_raw = b.front_axis_raw) ∧
    (∀ gs : GlobalSettings, gs.props.get "FrontAxisSign" = none →
      gs.front_axis_sign_raw = .error (.propertyNotFound "FrontAxisSign")) ∧
    (∀ a b : GlobalSettings, a.props.get "FrontAxisSign" = b.props.get "FrontAxisSign" →
      a.front_axis_sign_raw = b.front_axis_sign_raw) ∧
    (∀ gs : GlobalSettings, gs.props.get "CoordAxis" = none →
      gs.coord_axis_raw = .error (.propertyNotFound "CoordAxis")) ∧
    (∀ a b : GlobalSettings, a.props.get "CoordAxis" = b.props.get "CoordAxis" →
      a.coord_axis_raw = b.coord_axis_raw) ∧
    (∀ gs : GlobalSettings, gs.props.get "CoordAxisSign" = none →
      gs.coord_axis_sign_raw = .error (.propertyNotFound "CoordAxisSign")) ∧
    (∀ a b : GlobalSettings, a.props.get "CoordAxisSign" = b.props.get "CoordAxisSign" →
      a.coord_axis_sign_raw = b.coord_axis_sign_raw) ∧
    (∀ gs : GlobalSettings, gs.props.get "OriginalUpAxis" = none →
      gs.original_up_axis_raw = .error (.propertyNotFound "OriginalUpAxis")) ∧
    (∀ a b : GlobalSettings, a.props.get "OriginalUpAxis" = b.props.get "OriginalUpAxis" →
      a.original_up_axis_raw = b.original_up_axis_raw) ∧
    (∀ gs : GlobalSettings, gs.props.get "OriginalUpAxisSign" = none →
      gs.original_up_axis_sign_raw = .error (.propertyNotFound "OriginalUpAxisSign")) ∧
    (∀ a b : GlobalSettings,
      a.props.get "OriginalUpAxisSign" = b.props.get "OriginalUpAxisSign" →
      a.original_up_axis_sign_raw = b.original_up_axis_sign_raw) ∧
    (∀ gs : GlobalSettings, gs.props.get "UnitScaleFactor" = none →
      gs.unit_scale_factor_raw = .error (.propertyNotFound "UnitScaleFactor")) ∧
    (∀ a b : GlobalSettings, a.props.get "UnitScaleFactor" = b.props.get "UnitScaleFactor" →
      a.unit_scale_factor_raw = b.unit_scale_factor_raw) := by
  refine ⟨fun gs h => ?_, fun a b h => ?_, fun gs h => ?_, fun a b h => ?_,
    fun gs h => ?_, fun a b h => ?_, fun gs h => ?_, fun a b h => ?_,
    fun gs h => ?_, fun a b h => ?_, fun gs h => ?_, fun a b h => ?_,
    fun gs h => ?_, fun a b h => ?_, fun gs h => ?_, fun a b h => ?_,
    fun gs h => ?_, fun a b h => ?_⟩
  · simp [GlobalSettings.up_axis_raw, h]
  · simp only [GlobalSettings.up_axis_raw]
    rw [h]
  · simp [GlobalSettings.up_axis_sign_raw, h]
  · simp only [GlobalSettings.up_axis_sign_raw]
    rw [h]
  · simp [GlobalSettings.front_axis_raw, h]
  · simp only [GlobalSettings.front_axis_raw]
    rw [h]
  · simp [GlobalSettings.front_axis_sign_raw, h]
  · simp only [GlobalSettings.front_axis_sign_raw]
    rw [h]
  · simp [GlobalSettings.coord_axis_raw, h]
  · simp only [GlobalSettings.coord_axis_raw]
    rw [h]
  · simp [GlobalSettings.coord_axis_sign_raw, h]
  · simp only [GlobalSettings.coord_axis_sign_raw]
    rw [h]
  · simp [GlobalSettings.original_up_axis_raw, h]
  · simp only [GlobalSettings.original_up_axis_raw]
    rw [h]
  · simp [GlobalSettings.original_up_axis_sign_raw, h]
  · simp only [GlobalSettings.original_up_axis_sign_raw]
    rw [h]
  · simp [GlobalSettings.unit_scale_factor_raw, h]
  · simp only [GlobalSettings.unit_scale_factor_raw]
    rw [h]

/-- C9 witness: on a settings object with no properties at all, the `UpAxis`
accessor fails naming exactly `UpAxis`, and two settings objects agreeing on
the `UnitScaleFactor` lookup agree on the accessor's result. -/
theorem global_settings_accessor_keys_witness :
    GlobalSettings.up_axis_raw ⟨⟨none, none⟩⟩ = .error (.propertyNotFound "UpAxis") ∧
    GlobalSettings.unit_scale_factor_raw ⟨⟨none, none⟩⟩ =
      GlobalSettings.unit_scale_factor_raw ⟨⟨some [], none⟩⟩ :=
  ⟨global_settings_accessor_keys.1 ⟨⟨none, none⟩⟩ rfl,
    global_settings_accessor_keys.2.2.2.2.2.2.2.2.2.2.2.2.2.2.2.2.2
      ⟨⟨none, none⟩⟩ ⟨⟨some [], none⟩⟩ rfl⟩

/-- C10: `GlobalSettings.new` fails with a node-not-found error naming
`GlobalSettings` exactly when the root has no child of that name; when the
node exists it always succeeds, building the properties from the optional
`Properties70` sub-node and the cache entry — in particular it still succeeds
when both the `Properties70` sub-node and the cache entry are absent. -/
theorem global_settings_new_spec :
    (∀ doc : Document,
      doc.root.first_child_by_name "GlobalSettings" = none →
      GlobalSettings.new doc = .error (.nodeNotFound "GlobalSettings")) ∧
    (∀ (doc : Document) (gsNode : FbxNode),
      doc.root.first_child_by_name "GlobalSettings" = some gsNode →
      GlobalSettings.new doc =
        .ok ⟨⟨(gsNode.first_child_by_name "Properties70").map FbxNode.props,
          doc.definitions_cache "GlobalSettings" "FbxGlobalSettings"⟩⟩) ∧
    (∀ (doc : Document) (gsNode : FbxNode),
      doc.root.first_child_by_name "GlobalSettings" = some gsNode →
      gsNode.first_child_by_name "Properties70" = none →
      doc.definitions_cache "GlobalSettings" "FbxGlobalSettings" = none →
      GlobalSettings.new doc = .ok ⟨⟨none, none⟩⟩) := by
  refine ⟨fun doc h => ?_, fun doc gsNode h => ?_, fun doc gsNode h h70 hcache => ?_⟩
  · simp [GlobalSettings.new, h]
  · simp [GlobalSettings.new, h]
  · simp [GlobalSettings.new, h, h70, hcache]

/-- C10 witness: on a document with a bare `GlobalSettings` node, no
`Properties70` sub-node, and an empty cache, construction succeeds with both
scopes empty. -/
theorem global_settings_new_spec_witness :
    GlobalSettings.new exampleBareDoc = .ok ⟨⟨none, none⟩⟩ :=
  global_settings_new_spec.2.2 exampleBareDoc (.node "GlobalSettings" [] []) rfl rfl rfl

/-- Scanning an encoded polygon (literal prefix, complemented last entry)
closes exactly that polygon, appended to the accumulator, and continues with
an empty accumulator. -/
theorem decodePolyVerts_closes (pre : List Nat) (last : Nat) :
    ∀ (current : List Nat) (rest : List Int),
      3 ≤ current.length + pre.length + 1 →
      decodePolyVerts current ((pre.map Int.ofNat) ++ Int.negSucc last :: rest) =
        (decodePolyVerts [] rest).map fun polys => (current ++ pre ++ [last]) :: polys := by
  induction pre with
  | nil =>
    intro current rest hlen
    have hneg : ¬(0 : Int) ≤ Int.negSucc last := by
      rw [Int.negSucc_eq]
      omega
    have hlast : (-(Int.negSucc last + 1)).toNat = last := by
      rw [Int.negSucc_eq]
      omega
    simp only [List.map_nil, List.nil_append, decodePolyVerts, hneg, if_false, hlast]
    rw [if_neg]
    · simp
    · simp only [List.length_append, List.length_cons, List.length_nil] at hlen ⊢
      omega
  | cons a pre ih =>
    intro current rest hlen
    have hpos : (0 : Int) ≤ Int.ofNat a := Int.ofNat_nonneg a
    have htn : (Int.ofNat a).toNat = a := rfl
    simp only [List.map_cons, List.cons_append, decodePolyVerts, hpos, if_true, htn,
      List.append_eq]
    rw [ih (current ++ [a]) rest (by
      simp only [List.length_append, List.length_cons, List.length_nil] at hlen ⊢
      omega)]
    simp

/-- A raw buffer whose final entry is non-negative never decodes
successfully, whatever polygon is currently open. -/
theorem decodePolyVerts_open_end (l : List Int) (n : Nat) :
    ∀ current : List Nat,
      decodePolyVerts current (l ++ [Int.ofNat n]) = .error .MalformedIndexBuffer := by
  induction l with
  | nil =>
    intro current
    have hpos : (0 : Int) ≤ Int.ofNat n := Int.ofNat_nonneg n
    simp [decodePolyVerts, hpos]
  | cons v l ih =>
    intro current
    by_cases hv : (0 : Int) ≤ v
    · simp only [List.cons_append, decodePolyVerts, hv, if_true]
      exact ih _
    · simp only [List.cons_append, decodePolyVerts, hv, if_false]
      split
      · rfl
      · simp only [List.append_eq]
        rw [ih []]
        rfl

/-- Every polygon of a successful decode has at least 3 vertices. -/
theorem decodePolyVerts_min_length (raw : List Int) :
    ∀ (current : List Nat) (polys : List (List Nat)),
      decodePolyVerts current raw = .ok polys → ∀ p ∈ polys, 3 ≤ p.length := by
  induction raw with
  | nil =>
    intro current polys h p hp
    simp only [decodePolyVerts] at h
    split at h
    · cases h
      simp at hp
    · cases h
  | cons v rest ih =>
    intro current polys h p hp
    simp only [decodePolyVerts] at h
    split at h
    · exact ih _ _ h p hp
    · split at h
      · cases h
      · rcases hrec : decodePolyVerts [] rest with e | polys'
        · rw [hrec] at h
          cases h
        · rw [hrec] at h
          cases h
          rcases List.mem_cons.mp hp with rfl | hp'
          · omega
          · exact ih _ _ hrec p hp'

/-- C5: the decoder scans left to right, taking non-negative entries
literally and letting every negative entry `v` close the current polygon
with `-(v + 1)` as its last vertex — so decoding the encoding of any polygon
sequence (all polygons with at least 3 vertices) recovers exactly that
sequence, and the buffer `[0, 1, 2, ~3] = [0, 1, 2, -4]` decodes to the
single polygon `[0, 1, 2, 3]`. -/
theorem polygon_vertices_decode_spec :
    (∀ polys : List (List Nat), (∀ p ∈ polys, 3 ≤ p.length) →
      PolygonVertices.decode (encodePolygons polys) = .ok polys) ∧
    PolygonVertices.decode [0, 1, 2, -4] = .ok [[0, 1, 2, 3]] := by
  constructor
  · intro polys h
    induction polys with
    | nil => rfl
    | cons p ps ih =>
      have hp : 3 ≤ p.length := h p (List.mem_cons_self p ps)
      have hne : p ≠ [] := by
        intro he
        rw [he] at hp
        simp at hp
      have hlast : p.getLast? = some (p.getLast hne) := List.getLast?_eq_getLast p hne
      have henc : encodePolygons (p :: ps) =
          (p.dropLast.map Int.ofNat) ++ Int.negSucc (p.getLast hne) :: encodePolygons ps := by
        simp [encodePolygons, encodePolygon, hlast]
      unfold PolygonVertices.decode
      rw [henc,
        decodePolyVerts_closes p.dropLast (p.getLast hne) [] (encodePolygons ps) (by
          simp only [List.length_nil, List.length_dropLast]
          omega)]
      have hrec := ih fun q hq => h q (List.mem_cons_of_mem p hq)
      unfold PolygonVertices.decode at hrec
      rw [hrec]
      simp [List.dropLast_append_getLast hne, Except.map]
  · rfl

/-- C5 witness: the general decoding law applied at the single square
polygon, whose encoding is the buffer of the §8 example. -/
theorem polygon_vertices_decode_spec_witness :
    PolygonVertices.decode (encodePolygons [[0, 1, 2, 3]]) = .ok [[0, 1, 2, 3]] :=
  polygon_vertices_decode_spec.1 [[0, 1, 2, 3]] (by decide)

/-- The fan over a tail of length `m` holds `m - 1` triangles. -/
theorem fanFrom_length (v0 : Nat) : ∀ l : List Nat, (fanFrom v0 l).length = l.length - 1 := by
  intro l
  induction l with
  | nil => rfl
  | cons a tail ih =>
    cases tail with
    | nil => rfl
    | cons b rest =>
      simp only [fanFrom, List.length_cons] at ih ⊢
      omega

/-- Triangle `k` of the fan over a tail pairs `v0` with the tail entries at
positions `k` and `k + 1`. -/
theorem fanFrom_getD (v0 : Nat) :
    ∀ (l : List Nat) (k : Nat), k < l.length - 1 →
      (fanFrom v0 l).getD k (0, 0, 0) = (v0, l.getD k 0, l.getD (k + 1) 0) := by
  intro l
  induction l with
  | nil =>
    intro k hk
    simp at hk
  | cons a tail ih =>
    intro k hk
    cases tail with
    | nil => simp at hk
    | cons b rest =>
      cases k with
      | zero => rfl
      | succ k =>
        simp only [fanFrom, List.getD_cons_succ]
        refine ih (k) ?_
        simp only [List.length_cons] at hk ⊢
        omega

/-- C6: for a polygon with `n ≥ 3` vertices, the fan triangulation has
exactly `n - 2` triangles, triangle `k` being `(v0, v(k+1), v(k+2))`; the
square `[0, 1, 2, 3]` yields `(0, 1, 2)` and `(0, 2, 3)`. -/
theorem fan_triangulation_spec :
    (∀ poly : List Nat, 3 ≤ poly.length →
      (fanTriangles poly).length = poly.length - 2 ∧
      ∀ k, k < poly.length - 2 →
        (fanTriangles poly).getD k (0, 0, 0) =
          (poly.getD 0 0, poly.getD (k + 1) 0, poly.getD (k + 2) 0)) ∧
    fanTriangles [0, 1, 2, 3] = [(0, 1, 2), (0, 2, 3)] := by
  refine ⟨fun poly hp => ?_, rfl⟩
  cases poly with
  | nil => simp at hp
  | cons v0 rest =>
    constructor
    · simp only [fanTriangles, fanFrom_length, List.length_cons]
      omega
    · intro k hk
      simp only [fanTriangles, List.getD_cons_zero, List.getD_cons_succ]
      refine fanFrom_getD v0 rest k ?_
      simp only [List.length_cons] at hk ⊢
      omega

/-- C6 witness: triangle 0 of the square polygon, through the general law. -/
theorem fan_triangulation_spec_witness :
    (fanTriangles [0, 1, 2, 3]).getD 0 (0, 0, 0) =
      ([0, 1, 2, 3].getD 0 0, [0, 1, 2, 3].getD 1 0, [0, 1, 2, 3].getD 2 0) :=
  (fan_triangulation_spec.1 [0, 1, 2, 3] (by decide)).2 0 (by decide)

/-- C7: decoding is a hard `MalformedIndexBuffer` error on the §8 example
`[0, ~1] = [0, -2]` (a length-2 polygon); moreover any buffer ending in a
non-negative entry (not a polygon boundary) fails, and every polygon of a
successful decode has at least 3 vertices (so a short polygon can never be
silently produced). -/
theorem polygon_vertices_malformed_spec :
    PolygonVertices.decode [0, -2] = .error .MalformedIndexBuffer ∧
    (∀ (l : List Int) (n : Nat),
      PolygonVertices.decode (l ++ [Int.ofNat n]) = .error .MalformedIndexBuffer) ∧
    (∀ (raw : List Int) (polys : List (List Nat)),
      PolygonVertices.decode raw = .ok polys → ∀ p ∈ polys, 3 ≤ p.length) :=
  ⟨rfl, fun l n => decodePolyVerts_open_end l n [],
    fun raw polys h => decodePolyVerts_min_length raw [] polys h⟩

/-- C7 witness: the minimum-length clause applied to the concrete successful
decode of the square's buffer. -/
theorem polygon_vertices_malformed_spec_witness :
    3 ≤ [0, 1, 2, 3].length :=
  polygon_vertices_malformed_spec.2.2 [0, 1, 2, -4] [[0, 1, 2, 3]] (by rfl)
    [0, 1, 2, 3] (by decide)

end Fbxcel
